import Mathlib

/-!
Verification development for the `rsbayer2rgb` GStreamer element
(`src/bayer/imp.rs`): a Bayer-mosaic to RGB/BGR/RGBA converter built on
`BaseTransform` and OpenCV.

The embedding below translates the element's four entry points —
`get_unit_size_trampoline`, `transform_caps`, `set_caps` and
`transform`/`opencv_transform` — into pure Lean functions over an explicit
model of GStreamer caps structures, `VideoInfo`, and OpenCV `Mat` objects.
External library behaviour (typed `Structure::get`, `VideoInfo::from_caps`,
`cvtColor`) is modelled from the documented semantics of those libraries;
everything else follows the Rust source line by line.
-/

/-- A GStreamer field value (`GValue`), restricted to the kinds the element
exchanges: fixed 32-bit integers, integer ranges, fractions, fraction
ranges (all with `Int` payloads) and strings. Typed reads (`get::<i32>`,
`get::<Fraction>`, `get::<&str>`) succeed only on the exactly matching
kind, as in GStreamer. -/
inductive GVal where
  | int (v : Int)
  | intRange (lo hi : Int)
  | fraction (num den : Int)
  | fractionRange (lnum lden hnum hden : Int)
  | str (s : String)
  deriving DecidableEq, Repr

/-- One GStreamer caps structure: a media-type name plus named fields, in
order. A caps set is a `List GstStructure`. -/
structure GstStructure where
  name : String
  fields : List (String × GVal)
  deriving DecidableEq, Repr

/-- Raw field lookup by name (first match), as in `gst_structure_get_value`. -/
def GstStructure.getField (s : GstStructure) (k : String) : Option GVal :=
  (s.fields.find? (fun p => p.1 = k)).map Prod.snd

/-- Typed read `structure.get::<i32>(k)`: succeeds only when the field holds
a fixed integer. A range value fails the typed read. -/
def GstStructure.getInt (s : GstStructure) (k : String) : Option Int :=
  match s.getField k with
  | some (GVal.int v) => some v
  | _ => none

/-- Typed read `structure.get::<gst::Fraction>(k)`: succeeds only when the
field holds a fixed fraction; a fraction range fails the typed read. -/
def GstStructure.getFraction (s : GstStructure) (k : String) : Option (Int × Int) :=
  match s.getField k with
  | some (GVal.fraction n d) => some (n, d)
  | _ => none

/-- Typed read `structure.get::<&str>(k)`. -/
def GstStructure.getStr (s : GstStructure) (k : String) : Option String :=
  match s.getField k with
  | some (GVal.str v) => some v
  | _ => none

/-- Rust's `v as usize` for an `i32` value widened through `Int`:
non-negative values are unchanged, negative ones wrap modulo `2^64`. -/
def i32AsUsize (v : Int) : Nat := (v % (2 : Int) ^ 64).toNat

/-- Embedding of `get_unit_size_trampoline` (src/bayer/imp.rs:55-117).
Reads the first structure of the caps, requires fixed `width` and `height`
fields, then dispatches on the structure name: `video/x-bayer` yields
`1 * height * width`, `video/x-raw` additionally requires a `format`
string and yields `3 * height * width` for RGB/BGR and `4 * height * width`
for RGBA; everything else returns GFALSE (modelled as `none`). -/
def get_unit_size (caps : List GstStructure) : Option Nat := do
  let s ← caps.head?
  let w ← s.getInt "width"
  let h ← s.getInt "height"
  let width := i32AsUsize w
  let height := i32AsUsize h
  match s.name with
  | "video/x-bayer" => some (1 * height * width)
  | "video/x-raw" =>
    match s.getStr "format" with
    | some "RGB" => some (3 * height * width)
    | some "BGR" => some (3 * height * width)
    | some "RGBA" => some (4 * height * width)
    | _ => none
  | _ => none

/-- The subset of `gst_video::VideoFormat` relevant here: the three formats
the element emits, plus representative other formats that GStreamer's
`VideoInfo` parser recognises (the real enum is larger; any member outside
the first three behaves alike for this element). -/
inductive VideoFormat where
  | Rgb
  | Bgr
  | Rgba
  | Bgra
  | Gray8
  | I420
  deriving DecidableEq, Repr

/-- `VideoFormat::to_str`, the caps string of each format. -/
def VideoFormat.to_str : VideoFormat → String
  | .Rgb => "RGB"
  | .Bgr => "BGR"
  | .Rgba => "RGBA"
  | .Bgra => "BGRA"
  | .Gray8 => "GRAY8"
  | .I420 => "I420"

/-- `gst::PadDirection`: `src` caps describe the element's output side,
`sink` caps its input side. -/
inductive PadDirection where
  | src
  | sink
  deriving DecidableEq, Repr

/-- The src→sink arm of `transform_caps` (src/bayer/imp.rs:196-214): from
one output structure derive the single Bayer structure: name
`video/x-bayer`, field `format = "rggb"`, then `width`, `height`,
`framerate` appended in that order, each only when the typed read on the
source structure succeeded. -/
def deriveSinkStructure (s : GstStructure) : GstStructure :=
  let width := s.getInt "width"
  let height := s.getInt "height"
  let framerate := s.getFraction "framerate"
  let f0 : List (String × GVal) := [("format", GVal.str "rggb")]
  let f1 := f0 ++ (match width with | some w => [("width", GVal.int w)] | none => [])
  let f2 := f1 ++ (match height with | some h => [("height", GVal.int h)] | none => [])
  let f3 := f2 ++
    (match framerate with | some (n, d) => [("framerate", GVal.fraction n d)] | none => [])
  ⟨"video/x-bayer", f3⟩

/-- One derived output structure of the sink→src arm
(src/bayer/imp.rs:226-245): name `video/x-raw`, field `format` set to the
given format's string, then `width`, `height`, `framerate` appended in that
order, each only when the typed read on the source structure succeeded. -/
def deriveRawStructure (fmt : VideoFormat) (s : GstStructure) : GstStructure :=
  let width := s.getInt "width"
  let height := s.getInt "height"
  let framerate := s.getFraction "framerate"
  let f0 : List (String × GVal) := [("format", GVal.str fmt.to_str)]
  let f1 := f0 ++ (match width with | some w => [("width", GVal.int w)] | none => [])
  let f2 := f1 ++ (match height with | some h => [("height", GVal.int h)] | none => [])
  let f3 := f2 ++
    (match framerate with | some (n, d) => [("framerate", GVal.fraction n d)] | none => [])
  ⟨"video/x-raw", f3⟩

/-- The sink→src arm of `transform_caps` (src/bayer/imp.rs:216-247): for
each input structure, one derived structure per supported output format, in
the fixed order Rgb, Bgr, Rgba of the source's format array. -/
def deriveSrcStructures (s : GstStructure) : List GstStructure :=
  [VideoFormat.Rgb, VideoFormat.Bgr, VideoFormat.Rgba].map (fun fmt => deriveRawStructure fmt s)

/-- Model of GStreamer value intersection (`gst_value_intersect`) for the
value kinds in play: fixed values intersect by equality, a fixed value
intersects a range by membership, two ranges by overlap. Fraction bounds
compare by cross-multiplication (denominators positive in GStreamer). -/
def gvalIntersect (a b : GVal) : Option GVal :=
  match a, b with
  | GVal.int v, GVal.int w => if v = w then some (GVal.int v) else none
  | GVal.int v, GVal.intRange lo hi =>
      if lo ≤ v ∧ v ≤ hi then some (GVal.int v) else none
  | GVal.intRange lo hi, GVal.int v =>
      if lo ≤ v ∧ v ≤ hi then some (GVal.int v) else none
  | GVal.intRange lo hi, GVal.intRange lo2 hi2 =>
      let l := max lo lo2
      let h := min hi hi2
      if l < h then some (GVal.intRange l h)
      else if l = h then some (GVal.int l) else none
  | GVal.fraction n d, GVal.fraction n2 d2 =>
      if n = n2 ∧ d = d2 then some (GVal.fraction n d) else none
  | GVal.fraction n d, GVal.fractionRange ln ld hn hd =>
      if ln * d ≤ n * ld ∧ n * hd ≤ hn * d then some (GVal.fraction n d) else none
  | GVal.fractionRange ln ld hn hd, GVal.fraction n d =>
      if ln * d ≤ n * ld ∧ n * hd ≤ hn * d then some (GVal.fraction n d) else none
  | GVal.str v, GVal.str w => if v = w then some (GVal.str v) else none
  | _, _ => none

/-- Helper for structure intersection: intersect the fields of the first
structure against the second's field list, failing when a shared field has
an empty intersection. -/
def intersectFieldsAux (bs : List (String × GVal)) :
    List (String × GVal) → Option (List (String × GVal))
  | [] => some []
  | (k, v) :: rest => do
    let tail ← intersectFieldsAux bs rest
    match bs.find? (fun p => p.1 = k) with
    | none => some ((k, v) :: tail)
    | some (_, w) => do
      let u ← gvalIntersect v w
      some ((k, u) :: tail)

/-- Model of `gst_structure_intersect`: same name, field-wise value
intersection, fields present on only one side carried through. -/
def structIntersect (a b : GstStructure) : Option GstStructure :=
  if a.name = b.name then do
    let common ← intersectFieldsAux b.fields a.fields
    let extra := b.fields.filter (fun p => (a.fields.find? (fun q => q.1 = p.1)).isNone)
    some ⟨a.name, common ++ extra⟩
  else none

/-- Model of the external `Caps::intersect_with_mode(other, First)` used at
src/bayer/imp.rs:260: pairwise structure intersections collected in
filter-major order (merge-time subset elimination of the C implementation
omitted; no claim below depends on the filtered path). -/
def intersectFirst (filterCaps other : List GstStructure) : List GstStructure :=
  filterCaps.flatMap (fun f => other.filterMap (fun o => structIntersect f o))

/-- Embedding of `transform_caps` (src/bayer/imp.rs:186-264). In the `src`
direction each structure maps to one Bayer structure; otherwise each
structure maps to the three raw-video structures in order Rgb, Bgr, Rgba.
A supplied filter is then intersected in First mode. The Rust function
returns `Option<Caps>` and always returns `Some`; the embedding keeps that
shape. -/
def transform_caps (direction : PadDirection) (caps : List GstStructure)
    (filter : Option (List GstStructure)) : Option (List GstStructure) :=
  let other_caps :=
    if direction = PadDirection.src then
      caps.map deriveSinkStructure
    else
      caps.flatMap deriveSrcStructures
  match filter with
  | some f => some (intersectFirst f other_caps)
  | none => some other_caps

/-- `InputInfo` (src/bayer/imp.rs:33-37): manually parsed Bayer input
geometry. -/
structure InputInfo where
  width : Nat
  height : Nat
  stride : Nat
  deriving DecidableEq, Repr

/-- `(n + 3) / 4 * 4`, GStreamer's `GST_ROUND_UP_4` used in default stride
computation. -/
def roundUp4 (n : Nat) : Nat := (n + 3) / 4 * 4

/-- Model of the parse table behind the external
`gst_video::VideoInfo::from_caps`: the format strings GStreamer's video
library recognises (restricted to the `VideoFormat` subset modelled
here). Strings outside the library's catalog parse to nothing. -/
def videoFormatFromStr (s : String) : Option VideoFormat :=
  match s with
  | "RGB" => some VideoFormat.Rgb
  | "BGR" => some VideoFormat.Bgr
  | "RGBA" => some VideoFormat.Rgba
  | "BGRA" => some VideoFormat.Bgra
  | "GRAY8" => some VideoFormat.Gray8
  | "I420" => some VideoFormat.I420
  | _ => none

/-- Bytes per pixel of the first plane, used for the default stride. -/
def VideoFormat.pixelStrideBytes : VideoFormat → Nat
  | .Rgb => 3
  | .Bgr => 3
  | .Rgba => 4
  | .Bgra => 4
  | .Gray8 => 1
  | .I420 => 1

/-- Plane-0 default stride per GStreamer's format info: packed bytes per
row rounded up to a 4-byte boundary. -/
def defaultStride (fmt : VideoFormat) (width : Nat) : Nat :=
  roundUp4 (width * fmt.pixelStrideBytes)

/-- The slice of `gst_video::VideoInfo` the element uses: negotiated output
format, dimensions and plane-0 stride. -/
structure VideoInfo where
  format : VideoFormat
  width : Nat
  height : Nat
  stride : Nat
  deriving DecidableEq, Repr

/-- Model of the external `gst_video::VideoInfo::from_caps`: requires the
first structure to be `video/x-raw` with a recognised `format` string and
fixed `width`/`height`; derives the default plane stride. Any failure is a
parse error (`none`). -/
def videoInfoFromCaps (caps : List GstStructure) : Option VideoInfo := do
  let s ← caps.head?
  if s.name = "video/x-raw" then do
    let fstr ← s.getStr "format"
    let fmt ← videoFormatFromStr fstr
    let w ← s.getInt "width"
    let h ← s.getInt "height"
    some { format := fmt, width := i32AsUsize w, height := i32AsUsize h,
           stride := defaultStride fmt (i32AsUsize w) }
  else none

/-- Total byte size of a single-plane video frame, `VideoInfo::size()` for
the packed formats in play: plane stride times height. -/
def videoInfoSize (vi : VideoInfo) : Nat := vi.stride * vi.height

/-- Contents of an OpenCV `Mat` in the model. Pixel arithmetic of the
external demosaic is out of scope; contents record provenance instead:
either uninitialised, a wrap of external input bytes, or the result of a
`cvtColor` conversion applied to some source contents. -/
inductive MatData where
  | uninit
  | bytes (bs : List Nat)
  | converted (code : Nat) (src : MatData)
  deriving DecidableEq, Repr

/-- Model of an OpenCV `Mat` header: dimensions, channel count, an
allocation identity (fresh ids come from an explicit counter, so buffer
reuse versus reallocation is observable), and contents. Mats wrapping
caller-owned memory carry `allocId = 0`. -/
structure Mat where
  rows : Nat
  cols : Nat
  channels : Nat
  allocId : Nat
  data : MatData
  deriving DecidableEq, Repr

/-- OpenCV conversion codes used by the element:
`COLOR_RGB2RGBA = 0`, `COLOR_BayerBG2BGR = 46`, `COLOR_BayerBG2RGB = 48`. -/
def COLOR_RGB2RGBA : Nat := 0

/-- `COLOR_BayerBG2BGR`. -/
def COLOR_BayerBG2BGR : Nat := 46

/-- `COLOR_BayerBG2RGB`. -/
def COLOR_BayerBG2RGB : Nat := 48

/-- Output channel count of each conversion code in play. -/
def cvtOutChannels (code : Nat) : Nat := if code = COLOR_RGB2RGBA then 4 else 3

/-- Model of the external `opencv::imgproc::cvt_color_def(src, dst, code)`:
OpenCV first calls `dst.create(src.rows, src.cols, outType)`, which is a
no-op when the destination header already matches (the existing allocation
is reused) and reallocates otherwise; then the converted pixels are
written. Returns the destination mat and the allocation counter. -/
def cvt_color_def (src dst : Mat) (code : Nat) (fresh : Nat) : Mat × Nat :=
  let outCh := cvtOutChannels code
  if dst.rows = src.rows ∧ dst.cols = src.cols ∧ dst.channels = outCh then
    ({ dst with data := MatData.converted code src.data }, fresh)
  else
    ({ rows := src.rows, cols := src.cols, channels := outCh, allocId := fresh,
       data := MatData.converted code src.data }, fresh + 1)

/-- The model of reading `rows * step` bytes through the raw pointer that
`Mat::new_rows_cols_with_data_unsafe` wraps: the constructor receives only
a pointer, so no length check exists; indices past the end of the actual
buffer are an out-of-bounds read, modelled as reading 0. -/
def oobRead (l : List Nat) (n : Nat) : List Nat :=
  (List.range n).map (fun i => l.getD i 0)

/-- `State` (src/bayer/imp.rs:27-31): negotiated geometry plus the lazily
allocated intermediate RGB mat for the RGBA path. -/
structure State where
  in_info : InputInfo
  out_info : VideoInfo
  intermediate_rgb : Option Mat
  deriving DecidableEq, Repr

/-- The configuration error cases of `set_caps`: the three
`gst::loggable_error!` sites. -/
inductive ConfigError where
  | noWidth
  | noHeight
  | badOutputCaps
  deriving DecidableEq, Repr

/-- `gst::FlowError` cases the element returns. `NotNegotiated` doubles as
the "transform before configure" error and the defensive unsupported-format
error. -/
inductive FlowError where
  | NotNegotiated
  | Error
  deriving DecidableEq, Repr

/-- Embedding of `set_caps` (src/bayer/imp.rs:266-315). `incaps.structure(0)
.unwrap()` panics on caps with no structure, modelled as the outer `none`.
Width and height are mandatory fixed ints; input stride is fixed to width;
the output caps must parse as a `VideoInfo`. On success the new state
carries `intermediate_rgb := none`, discarding any previous cache. -/
def set_caps (incaps outcaps : List GstStructure) : Option (Except ConfigError State) :=
  match incaps.head? with
  | none => none
  | some s =>
    match s.getInt "width" with
    | none => some (Except.error ConfigError.noWidth)
    | some w =>
      match s.getInt "height" with
      | none => some (Except.error ConfigError.noHeight)
      | some h =>
        let width := i32AsUsize w
        let height := i32AsUsize h
        let stride := width
        match videoInfoFromCaps outcaps with
        | none => some (Except.error ConfigError.badOutputCaps)
        | some out_info =>
          some (Except.ok
            { in_info := { width := width, height := height, stride := stride },
              out_info := out_info,
              intermediate_rgb := none })

/-- Embedding of `opencv_transform` (src/bayer/imp.rs:348-438). The input
mat wraps the input bytes with no length check (`oobRead`); RGB/BGR run one
`cvt_color_def` straight into the output wrap; RGBA runs two passes through
the cached (or freshly allocated) intermediate mat, which is stored back
into the state; any other negotiated format is `NotNegotiated`. Returns the
written output mat, the updated state and the allocation counter. -/
def opencv_transform (in_data : List Nat) (st : State) (fresh : Nat) :
    Except FlowError (Mat × State × Nat) :=
  let input_mat : Mat :=
    { rows := st.in_info.height, cols := st.in_info.width, channels := 1,
      allocId := 0,
      data := MatData.bytes (oobRead in_data (st.in_info.height * st.in_info.stride)) }
  match st.out_info.format with
  | VideoFormat.Bgr =>
    let output_mat : Mat :=
      { rows := st.out_info.height, cols := st.out_info.width, channels := 3,
        allocId := 0, data := MatData.uninit }
    let (out, fresh1) := cvt_color_def input_mat output_mat COLOR_BayerBG2BGR fresh
    Except.ok (out, st, fresh1)
  | VideoFormat.Rgb =>
    let output_mat : Mat :=
      { rows := st.out_info.height, cols := st.out_info.width, channels := 3,
        allocId := 0, data := MatData.uninit }
    let (out, fresh1) := cvt_color_def input_mat output_mat COLOR_BayerBG2RGB fresh
    Except.ok (out, st, fresh1)
  | VideoFormat.Rgba =>
    let (inter0, fresh1) :=
      match st.intermediate_rgb with
      | some mat => (mat, fresh)
      | none =>
        ({ rows := st.in_info.height, cols := st.in_info.width, channels := 3,
           allocId := fresh, data := MatData.uninit }, fresh + 1)
    let (inter1, fresh2) := cvt_color_def input_mat inter0 COLOR_BayerBG2RGB fresh1
    let st1 : State := { st with intermediate_rgb := some inter1 }
    let output_mat : Mat :=
      { rows := st.out_info.height, cols := st.out_info.width, channels := 4,
        allocId := 0, data := MatData.uninit }
    let (out, fresh3) := cvt_color_def inter1 output_mat COLOR_RGB2RGBA fresh2
    Except.ok (out, st1, fresh3)
  | _ => Except.error FlowError.NotNegotiated

/-- One element instance: the mutex-guarded `Option<State>` plus the
model's allocation counter for mat identities. -/
structure Session where
  state : Option State
  fresh : Nat
  deriving DecidableEq, Repr

/-- `set_caps` at the session level: on success the state is replaced
wholesale (src/bayer/imp.rs:308-312); on error or panic it is untouched. -/
def sessionSetCaps (sess : Session) (incaps outcaps : List GstStructure) :
    Option (Except ConfigError Session) :=
  (set_caps incaps outcaps).map
    (fun r => r.map (fun st => { state := some st, fresh := sess.fresh }))

/-- Embedding of `transform` (src/bayer/imp.rs:317-345). A missing state is
`NotNegotiated`; mapping the output buffer as a writable video frame fails
when the buffer is smaller than the negotiated frame size; otherwise
`opencv_transform` runs and its state/counter updates are kept. -/
def transform (sess : Session) (in_data : List Nat) (outbufSize : Nat) :
    Except FlowError Mat × Session :=
  match sess.state with
  | none => (Except.error FlowError.NotNegotiated, sess)
  | some st =>
    if outbufSize < videoInfoSize st.out_info then
      (Except.error FlowError.Error, sess)
    else
      match opencv_transform in_data st sess.fresh with
      | Except.ok (out, st1, fresh1) =>
        (Except.ok out, { state := some st1, fresh := fresh1 })
      | Except.error e => (Except.error e, sess)

/-- One observable operation on an element instance. -/
inductive Op where
  | setcaps (incaps outcaps : List GstStructure)
  | frame (in_data : List Nat) (outbufSize : Nat)
  deriving Repr

/-- Apply one operation to a session. A failed `set_caps` leaves the state
untouched (the error returns before the assignment); the panic case cannot
continue, so it is modelled as leaving the session unchanged. -/
def applyOp (sess : Session) (op : Op) : Session :=
  match op with
  | Op.setcaps i o =>
    match sessionSetCaps sess i o with
    | some (Except.ok s1) => s1
    | some (Except.error _) => sess
    | none => sess
  | Op.frame d sz => (transform sess d sz).2

/-- The fresh element instance: no negotiated state. -/
def initSession : Session := { state := none, fresh := 1 }

/-- Run a sequence of operations from the fresh instance. -/
def runOps (ops : List Op) : Session := ops.foldl applyOp initSession

/-- The cache invariant: whenever an intermediate mat is allocated, its
dimensions match the currently configured input geometry (3 channels). -/
def goodSession (sess : Session) : Prop :=
  ∀ st, sess.state = some st → ∀ m, st.intermediate_rgb = some m →
    m.rows = st.in_info.height ∧ m.cols = st.in_info.width ∧ m.channels = 3

/-- A fully specified Bayer input structure in the canonical field order the
sink pad template uses: format, width, height, framerate. -/
def bayerFull (w h n d : Int) : GstStructure :=
  ⟨"video/x-bayer", [("format", GVal.str "rggb"), ("width", GVal.int w),
    ("height", GVal.int h), ("framerate", GVal.fraction n d)]⟩

/-- A Bayer input structure whose `width` field is a bounded range rather
than a fixed value. -/
def rangeIn : GstStructure :=
  ⟨"video/x-bayer", [("format", GVal.str "rggb"), ("width", GVal.intRange 1 100),
    ("height", GVal.int 480), ("framerate", GVal.fraction 30 1)]⟩

/-- Concrete valid Bayer input caps, 640x480. -/
def bayerCaps0 : List GstStructure :=
  [⟨"video/x-bayer", [("format", GVal.str "rggb"), ("width", GVal.int 640),
    ("height", GVal.int 480)]⟩]

/-- Output caps naming GRAY8: a format GStreamer's video library parses but
that lies outside the element's closed output set. -/
def gray8Caps : List GstStructure :=
  [⟨"video/x-raw", [("format", GVal.str "GRAY8"), ("width", GVal.int 640),
    ("height", GVal.int 480)]⟩]

/-- Output caps naming a string no video-format catalog recognises. -/
def fooCaps : List GstStructure :=
  [⟨"video/x-raw", [("format", GVal.str "FOO"), ("width", GVal.int 640),
    ("height", GVal.int 480)]⟩]

/-- The state `set_caps bayerCaps0 gray8Caps` produces: a GRAY8-configured
session that `set_caps` accepted. -/
def stGray : State :=
  { in_info := { width := 640, height := 480, stride := 640 },
    out_info := { format := VideoFormat.Gray8, width := 640, height := 480, stride := 640 },
    intermediate_rgb := none }

/-- A configured 2x2 RGB session used to exercise the transform path. -/
def st7 : State :=
  { in_info := { width := 2, height := 2, stride := 2 },
    out_info := { format := VideoFormat.Rgb, width := 2, height := 2, stride := 8 },
    intermediate_rgb := none }

/-- A configured 2x2 RGBA session whose intermediate mat is already
allocated (allocation id 5) and matches the input geometry. -/
def stRgbaCached : State :=
  { in_info := { width := 2, height := 2, stride := 2 },
    out_info := { format := VideoFormat.Rgba, width := 2, height := 2, stride := 8 },
    intermediate_rgb := some { rows := 2, cols := 2, channels := 3, allocId := 5,
                               data := MatData.uninit } }

/-- `true` exactly on a successful flow return. -/
def flowOk (r : Except FlowError Mat) : Bool :=
  match r with
  | Except.ok _ => true
  | Except.error _ => false

lemma deriveRaw_name (fmt : VideoFormat) (s : GstStructure) :
    (deriveRawStructure fmt s).name = "video/x-raw" := rfl

lemma deriveRaw_format (fmt : VideoFormat) (s : GstStructure) :
    (deriveRawStructure fmt s).getStr "format" = some fmt.to_str := by
  unfold deriveRawStructure GstStructure.getStr GstStructure.getField
  rcases s.getInt "width" with _ | w <;> rcases s.getInt "height" with _ | h <;>
    rcases s.getFraction "framerate" with _ | ⟨n, d⟩ <;> rfl

lemma deriveRaw_width (fmt : VideoFormat) (s : GstStructure) :
    (deriveRawStructure fmt s).getField "width" = (s.getInt "width").map GVal.int := by
  unfold deriveRawStructure GstStructure.getField
  rcases s.getInt "width" with _ | w <;> rcases s.getInt "height" with _ | h <;>
    rcases s.getFraction "framerate" with _ | ⟨n, d⟩ <;> rfl

lemma deriveRaw_height (fmt : VideoFormat) (s : GstStructure) :
    (deriveRawStructure fmt s).getField "height" = (s.getInt "height").map GVal.int := by
  unfold deriveRawStructure GstStructure.getField
  rcases s.getInt "width" with _ | w <;> rcases s.getInt "height" with _ | h <;>
    rcases s.getFraction "framerate" with _ | ⟨n, d⟩ <;> rfl

lemma deriveRaw_framerate (fmt : VideoFormat) (s : GstStructure) :
    (deriveRawStructure fmt s).getField "framerate"
      = (s.getFraction "framerate").map (fun p => GVal.fraction p.1 p.2) := by
  unfold deriveRawStructure GstStructure.getField
  rcases s.getInt "width" with _ | w <;> rcases s.getInt "height" with _ | h <;>
    rcases s.getFraction "framerate" with _ | ⟨n, d⟩ <;> rfl

lemma deriveSink_width (s : GstStructure) :
    (deriveSinkStructure s).getField "width" = (s.getInt "width").map GVal.int := by
  unfold deriveSinkStructure GstStructure.getField
  rcases s.getInt "width" with _ | w <;> rcases s.getInt "height" with _ | h <;>
    rcases s.getFraction "framerate" with _ | ⟨n, d⟩ <;> rfl

lemma deriveSink_height (s : GstStructure) :
    (deriveSinkStructure s).getField "height" = (s.getInt "height").map GVal.int := by
  unfold deriveSinkStructure GstStructure.getField
  rcases s.getInt "width" with _ | w <;> rcases s.getInt "height" with _ | h <;>
    rcases s.getFraction "framerate" with _ | ⟨n, d⟩ <;> rfl

lemma deriveSink_framerate (s : GstStructure) :
    (deriveSinkStructure s).getField "framerate"
      = (s.getFraction "framerate").map (fun p => GVal.fraction p.1 p.2) := by
  unfold deriveSinkStructure GstStructure.getField
  rcases s.getInt "width" with _ | w <;> rcases s.getInt "height" with _ | h <;>
    rcases s.getFraction "framerate" with _ | ⟨n, d⟩ <;> rfl

/-- Claim C1: for every supported format and all positive width `w` and
height `h` (as 32-bit caps integers), the buffer-size query returns exactly
`w*h*channels` bytes: `w*h*1` for the `video/x-bayer` mosaic input,
`w*h*3` for output formats RGB and BGR, and `w*h*4` for RGBA, with no
rounding or alignment applied. -/
theorem C1_get_unit_size (s : GstStructure) (w h : Int)
    (hw0 : 0 < w) (hw1 : w < 2 ^ 31) (hh0 : 0 < h) (hh1 : h < 2 ^ 31)
    (hwf : s.getInt "width" = some w) (hhf : s.getInt "height" = some h) :
    (s.name = "video/x-bayer" → get_unit_size [s] = some (w.toNat * h.toNat * 1)) ∧
    (s.name = "video/x-raw" → s.getStr "format" = some "RGB" →
      get_unit_size [s] = some (w.toNat * h.toNat * 3)) ∧
    (s.name = "video/x-raw" → s.getStr "format" = some "BGR" →
      get_unit_size [s] = some (w.toNat * h.toNat * 3)) ∧
    (s.name = "video/x-raw" → s.getStr "format" = some "RGBA" →
      get_unit_size [s] = some (w.toNat * h.toNat * 4)) := by
  have hwu : i32AsUsize w = w.toNat := by
    unfold i32AsUsize
    rw [Int.emod_eq_of_lt (le_of_lt hw0) (lt_trans hw1 (by norm_num))]
  have hhu : i32AsUsize h = h.toNat := by
    unfold i32AsUsize
    rw [Int.emod_eq_of_lt (le_of_lt hh0) (lt_trans hh1 (by norm_num))]
  refine ⟨?_, ?_, ?_, ?_⟩
  · intro hn
    simp only [get_unit_size, List.head?, Option.bind_eq_bind, Option.some_bind,
      hwf, hhf, hn, hwu, hhu]
    congr 1
    ring
  · intro hn hf
    simp only [get_unit_size, List.head?, Option.bind_eq_bind, Option.some_bind,
      hwf, hhf, hn, hf, hwu, hhu]
    congr 1
    ring
  · intro hn hf
    simp only [get_unit_size, List.head?, Option.bind_eq_bind, Option.some_bind,
      hwf, hhf, hn, hf, hwu, hhu]
    congr 1
    ring
  · intro hn hf
    simp only [get_unit_size, List.head?, Option.bind_eq_bind, Option.some_bind,
      hwf, hhf, hn, hf, hwu, hhu]
    congr 1
    ring

/-- Concrete instance of C1: a 640x480 Bayer caps yields 307200 bytes. -/
theorem C1_witness :
    get_unit_size [⟨"video/x-bayer", [("width", GVal.int 640), ("height", GVal.int 480)]⟩]
      = some ((640 : Int).toNat * (480 : Int).toNat * 1) :=
  (C1_get_unit_size
    ⟨"video/x-bayer", [("width", GVal.int 640), ("height", GVal.int 480)]⟩
    640 480 (by norm_num) (by norm_num) (by norm_num) (by norm_num) rfl rfl).1 rfl

/-- Claim C2: negotiating upstream→downstream (sink caps to src caps) emits
exactly one derived output entry per supported output format per input
entry — three in total, in the fixed order RGB, BGR, RGBA — carrying the
`width`, `height` and `framerate` fields over only when present in the
source entry (carried verbatim when held as a fixed value) and never
inventing values for absent fields. -/
theorem C2_transform_caps_sink (caps : List GstStructure) (s d : GstStructure)
    (hd : d ∈ deriveSrcStructures s) :
    transform_caps PadDirection.sink caps none = some (caps.flatMap deriveSrcStructures) ∧
    (deriveSrcStructures s).length = 3 ∧
    (deriveSrcStructures s).map (fun t => t.getStr "format")
      = [some "RGB", some "BGR", some "RGBA"] ∧
    ((s.getField "width" = none → d.getField "width" = none) ∧
     (∀ w, s.getInt "width" = some w → d.getField "width" = some (GVal.int w)) ∧
     (s.getField "height" = none → d.getField "height" = none) ∧
     (∀ h, s.getInt "height" = some h → d.getField "height" = some (GVal.int h)) ∧
     (s.getField "framerate" = none → d.getField "framerate" = none) ∧
     (∀ n dn, s.getFraction "framerate" = some (n, dn) →
        d.getField "framerate" = some (GVal.fraction n dn))) := by
  have hnone_int : ∀ k, s.getField k = none → s.getInt k = none := by
    intro k hk
    unfold GstStructure.getInt
    rw [hk]
  have hnone_frac : ∀ k, s.getField k = none → s.getFraction k = none := by
    intro k hk
    unfold GstStructure.getFraction
    rw [hk]
  refine ⟨rfl, rfl, by simp [deriveSrcStructures, deriveRaw_format, VideoFormat.to_str], ?_⟩
  simp only [deriveSrcStructures, List.map, List.mem_cons, List.not_mem_nil, or_false] at hd
  rcases hd with hd | hd | hd <;> subst hd <;>
    exact ⟨fun hk => by simp [deriveRaw_width, hnone_int _ hk],
      fun w hw => by simp [deriveRaw_width, hw],
      fun hk => by simp [deriveRaw_height, hnone_int _ hk],
      fun h hh => by simp [deriveRaw_height, hh],
      fun hk => by simp [deriveRaw_framerate, hnone_frac _ hk],
      fun n dn hf => by simp [deriveRaw_framerate, hf]⟩

/-- Concrete instance of C2: the RGB entry derived from a fully specified
640x480 30/1 Bayer entry carries width 640, height 480 and framerate 30/1. -/
theorem C2_witness :
    (deriveRawStructure VideoFormat.Rgb (bayerFull 640 480 30 1)).getField "width"
        = some (GVal.int 640) ∧
    (deriveRawStructure VideoFormat.Rgb (bayerFull 640 480 30 1)).getField "height"
        = some (GVal.int 480) ∧
    (deriveRawStructure VideoFormat.Rgb (bayerFull 640 480 30 1)).getField "framerate"
        = some (GVal.fraction 30 1) := by
  have h := C2_transform_caps_sink [] (bayerFull 640 480 30 1)
    (deriveRawStructure VideoFormat.Rgb (bayerFull 640 480 30 1)) (by decide)
  exact ⟨h.2.2.2.2.1 640 rfl, h.2.2.2.2.2.2.1 480 rfl, h.2.2.2.2.2.2.2.2 30 1 rfl⟩

/-- Claim C3: for every fully specified input descriptor (mosaic format and
fixed width, height, framerate, in the canonical field order), negotiating
upstream→downstream yields three output descriptors, and negotiating
downstream→upstream on each of them reproduces exactly the original input
descriptor, with format, width, height and framerate all preserved. -/
theorem C3_roundtrip (w h n d : Int) :
    (transform_caps PadDirection.sink [bayerFull w h n d] none).map
      (List.map (fun t => transform_caps PadDirection.src [t] none))
    = some [some [bayerFull w h n d], some [bayerFull w h n d],
            some [bayerFull w h n d]] := rfl

/-- Claim C4 counterexample: on an entry whose `width` is a bounded range,
the upstream→downstream negotiation does not carry the field through — all
three derived entries omit `width` entirely, because the typed `i32` read
fails on a range value. -/
theorem C4_counterexample :
    rangeIn.getField "width" = some (GVal.intRange 1 100) ∧
    ((transform_caps PadDirection.sink [rangeIn] none).getD []).length = 3 ∧
    ((transform_caps PadDirection.sink [rangeIn] none).getD []).all
      (fun t => (t.getField "width").isNone) = true := by decide

/-- Claim C4 as amended: in both directions, a `width`/`height`/`framerate`
field is carried into a derived entry exactly when the source holds it as a
fixed value of the expected type (`i32` for dimensions, fraction for
framerate); a field held as a bounded range fails the typed read and is
omitted from the derived entry, as are absent fields. -/
theorem C4_amended (s t : GstStructure) (ht : t ∈ deriveSrcStructures s) :
    (t.getField "width" = (s.getInt "width").map GVal.int ∧
     t.getField "height" = (s.getInt "height").map GVal.int ∧
     t.getField "framerate"
       = (s.getFraction "framerate").map (fun p => GVal.fraction p.1 p.2)) ∧
    ((deriveSinkStructure s).getField "width" = (s.getInt "width").map GVal.int ∧
     (deriveSinkStructure s).getField "height" = (s.getInt "height").map GVal.int ∧
     (deriveSinkStructure s).getField "framerate"
       = (s.getFraction "framerate").map (fun p => GVal.fraction p.1 p.2)) := by
  refine ⟨?_, deriveSink_width s, deriveSink_height s, deriveSink_framerate s⟩
  simp only [deriveSrcStructures, List.map, List.mem_cons, List.not_mem_nil, or_false] at ht
  rcases ht with ht | ht | ht <;> subst ht <;>
    exact ⟨deriveRaw_width _ s, deriveRaw_height _ s, deriveRaw_framerate _ s⟩

/-- Concrete instance of the amended C4: on `rangeIn` (range width, fixed
height and framerate) the derived RGB entry drops `width` and keeps the
fixed fields. -/
theorem C4_witness :
    (deriveRawStructure VideoFormat.Rgb rangeIn).getField "width" = none ∧
    (deriveRawStructure VideoFormat.Rgb rangeIn).getField "height"
      = some (GVal.int 480) := by
  have hmem : deriveRawStructure VideoFormat.Rgb rangeIn ∈ deriveSrcStructures rangeIn := by
    decide
  have h := (C4_amended rangeIn (deriveRawStructure VideoFormat.Rgb rangeIn) hmem).1
  exact ⟨by rw [h.1]; rfl, by rw [h.2.1]; rfl⟩

/-- Claim C5 counterexample: configuring with valid 640x480 Bayer input
caps and output caps naming GRAY8 — a format outside the closed output set
{RGB, BGR, RGBA} but recognised by the host's video-caps parser — succeeds
instead of failing with a ConfigurationError. -/
theorem C5_counterexample :
    set_caps bayerCaps0 gray8Caps = some (Except.ok stGray) ∧
    stGray.out_info.format ≠ VideoFormat.Rgb ∧
    stGray.out_info.format ≠ VideoFormat.Bgr ∧
    stGray.out_info.format ≠ VideoFormat.Rgba := by
  refine ⟨rfl, ?_, ?_, ?_⟩ <;> decide

/-- Claim C5 as amended: the configure step fails with a ConfigurationError
exactly when the output descriptor cannot be parsed by the host's
video-caps parser (unknown format string); an output format the parser
knows but that lies outside {RGB, BGR, RGBA} is accepted by configure, and
the transform step is what rejects it, with the defensive not-negotiated
error. -/
theorem C5_amended (incaps outcaps : List GstStructure) (s : GstStructure) (w h : Int)
    (hin : incaps.head? = some s)
    (hw : s.getInt "width" = some w) (hh : s.getInt "height" = some h)
    (st : State) (f : Nat) (d : List Nat) (sz : Nat) :
    (videoInfoFromCaps outcaps = none →
      set_caps incaps outcaps = some (Except.error ConfigError.badOutputCaps)) ∧
    (st.out_info.format ≠ VideoFormat.Rgb → st.out_info.format ≠ VideoFormat.Bgr →
      st.out_info.format ≠ VideoFormat.Rgba → videoInfoSize st.out_info ≤ sz →
      (transform { state := some st, fresh := f } d sz).1
        = Except.error FlowError.NotNegotiated) := by
  constructor
  · intro hvi
    simp only [set_caps, hin, hw, hh, hvi]
  · intro h1 h2 h3 hsz
    have hlt : ¬ sz < videoInfoSize st.out_info := by omega
    simp only [transform, hlt, if_false]
    unfold opencv_transform
    rcases hfmt : st.out_info.format <;> simp_all

/-- Concrete instance of the amended C5: an unknown format string "FOO" is
a configuration error, while the GRAY8-configured session from the
counterexample fails only at transform time with NotNegotiated. -/
theorem C5_witness :
    set_caps bayerCaps0 fooCaps = some (Except.error ConfigError.badOutputCaps) ∧
    (transform { state := some stGray, fresh := 1 } [] 307200).1
      = Except.error FlowError.NotNegotiated := by
  have h := C5_amended bayerCaps0 fooCaps
    ⟨"video/x-bayer", [("format", GVal.str "rggb"), ("width", GVal.int 640),
      ("height", GVal.int 480)]⟩ 640 480 rfl rfl rfl stGray 1 [] 307200
  exact ⟨h.1 rfl, h.2 (by decide) (by decide) (by decide) (by decide)⟩

/-- Claim C6: a transform call made while no configuration is held fails
with the not-negotiated error and leaves the session untouched — the
failure is per-call, not per-session: any session that a successful
configure call has put (back) into a configured state with a supported
output format runs transform successfully given an adequately sized output
buffer. -/
theorem C6_not_configured (f : Nat) (d : List Nat) (sz : Nat)
    (sess : Session) (incaps outcaps : List GstStructure) (sess1 : Session)
    (_hcfg : sessionSetCaps sess incaps outcaps = some (Except.ok sess1))
    (st : State) (hst : sess1.state = some st)
    (hfmt : st.out_info.format = VideoFormat.Rgb ∨ st.out_info.format = VideoFormat.Bgr ∨
      st.out_info.format = VideoFormat.Rgba)
    (hsz : videoInfoSize st.out_info ≤ sz) :
    (transform { state := none, fresh := f } d sz
      = (Except.error FlowError.NotNegotiated, { state := none, fresh := f })) ∧
    flowOk (transform sess1 d sz).1 = true := by
  refine ⟨rfl, ?_⟩
  have hlt : ¬ sz < videoInfoSize st.out_info := by omega
  simp only [transform, hst, hlt, if_false]
  unfold opencv_transform
  rcases hf : st.out_info.format <;> simp_all [flowOk]

/-- Output caps naming RGB at 640x480. -/
def rgbCaps : List GstStructure :=
  [⟨"video/x-raw", [("format", GVal.str "RGB"), ("width", GVal.int 640),
    ("height", GVal.int 480)]⟩]

/-- The state `set_caps bayerCaps0 rgbCaps` produces. -/
def stRgb0 : State :=
  { in_info := { width := 640, height := 480, stride := 640 },
    out_info := { format := VideoFormat.Rgb, width := 640, height := 480, stride := 1920 },
    intermediate_rgb := none }

/-- Concrete instance of C6: the fresh instance rejects a frame with the
not-negotiated error, and after configuring Bayer 640x480 to RGB the same
frame call succeeds. -/
theorem C6_witness :
    (transform { state := none, fresh := 1 } [] 921600
      = (Except.error FlowError.NotNegotiated, { state := none, fresh := 1 })) ∧
    flowOk (transform { state := some stRgb0, fresh := 1 } [] 921600).1 = true :=
  C6_not_configured 1 [] 921600 initSession bayerCaps0 rgbCaps
    { state := some stRgb0, fresh := 1 } rfl stRgb0 rfl (Or.inl rfl) (by norm_num [videoInfoSize, stRgb0])

/-- Claim C7 evaluated at the failing input: on a configured 2x2 RGB
session (`height * stride = 4`), a transform call whose input buffer holds
only 3 bytes does not return an error — the input mat wraps the raw
pointer with no length check, the demosaic runs, and the fourth sample is
read out of bounds (modelled as 0). The code performs the conversion and
reports success where the claim requires a fatal per-frame error. -/
theorem C7_no_input_size_check :
    ([1, 2, 3] : List Nat).length < st7.in_info.height * st7.in_info.stride ∧
    (transform { state := some st7, fresh := 1 } [1, 2, 3] 16).1
      = Except.ok
          { rows := 2, cols := 2, channels := 3, allocId := 0,
            data := MatData.converted COLOR_BayerBG2RGB (MatData.bytes [1, 2, 3, 0]) } :=
  ⟨by decide, rfl⟩

lemma cvt_color_dims (src dst : Mat) (code fresh : Nat) :
    (cvt_color_def src dst code fresh).1.rows = src.rows ∧
    (cvt_color_def src dst code fresh).1.cols = src.cols ∧
    (cvt_color_def src dst code fresh).1.channels = cvtOutChannels code := by
  simp only [cvt_color_def]
  split <;> simp_all

lemma set_caps_ok_intermediate (i o : List GstStructure) (st : State)
    (h : set_caps i o = some (Except.ok st)) : st.intermediate_rgb = none := by
  unfold set_caps at h
  repeat' split at h
  all_goals simp_all
  exact (congrArg State.intermediate_rgb h.symm).trans rfl

lemma opencv_transform_good (d : List Nat) (st : State) (fr : Nat) (out : Mat)
    (st1 : State) (fr1 : Nat)
    (hop : opencv_transform d st fr = Except.ok (out, st1, fr1))
    (hprev : ∀ m, st.intermediate_rgb = some m →
      m.rows = st.in_info.height ∧ m.cols = st.in_info.width ∧ m.channels = 3) :
    st1.in_info = st.in_info ∧
    ∀ m, st1.intermediate_rgb = some m →
      m.rows = st.in_info.height ∧ m.cols = st.in_info.width ∧ m.channels = 3 := by
  unfold opencv_transform at hop
  rcases hfmt : st.out_info.format <;> rw [hfmt] at hop <;>
    simp only [Except.ok.injEq, Prod.mk.injEq] at hop
  case Rgb | Bgr =>
    obtain ⟨-, hst1, -⟩ := hop
    subst hst1
    exact ⟨rfl, hprev⟩
  case Rgba =>
    rcases hcache : st.intermediate_rgb with _ | m0 <;> rw [hcache] at hop <;>
      simp only [Except.ok.injEq, Prod.mk.injEq] at hop <;>
      obtain ⟨-, hst1, -⟩ := hop <;> subst hst1 <;>
      refine ⟨rfl, ?_⟩ <;> intro m hm <;>
      simp only [Option.some.injEq] at hm <;> rw [← hm] <;>
      exact cvt_color_dims _ _ COLOR_BayerBG2RGB _
  case Bgra | Gray8 | I420 => exact absurd hop (by simp)

lemma transform_snd_good (sess : Session) (d : List Nat) (sz : Nat)
    (h : goodSession sess) : goodSession (transform sess d sz).2 := by
  intro st1 hst1 m hm
  rcases hsess : sess.state with _ | st
  · rw [show (transform sess d sz).2 = sess by unfold transform; rw [hsess]] at hst1
    exact h st1 hst1 m hm
  · by_cases hsz : sz < videoInfoSize st.out_info
    · rw [show (transform sess d sz).2 = sess by
        unfold transform; rw [hsess]; simp [hsz]] at hst1
      exact h st1 hst1 m hm
    · rcases hop : opencv_transform d st sess.fresh with e | ⟨out, st2, fr2⟩
      · rw [show (transform sess d sz).2 = sess by
          unfold transform; rw [hsess]; simp [hsz, hop]] at hst1
        exact h st1 hst1 m hm
      · rw [show (transform sess d sz).2 = { state := some st2, fresh := fr2 } by
          unfold transform; rw [hsess]; simp [hsz, hop]] at hst1
        simp only [Option.some.injEq] at hst1
        subst hst1
        have hg := opencv_transform_good d st sess.fresh out st2 fr2 hop
          (fun m0 hm0 => h st hsess m0 hm0)
        rw [hg.1]
        exact hg.2 m hm

lemma applyOp_good (sess : Session) (op : Op) (h : goodSession sess) :
    goodSession (applyOp sess op) := by
  rcases op with ⟨i, o⟩ | ⟨d, sz⟩
  · rcases hsc : sessionSetCaps sess i o with _ | r
    · rw [show applyOp sess (Op.setcaps i o) = sess by unfold applyOp; dsimp only []; rw [hsc]]
      exact h
    · rcases r with e | s1
      · rw [show applyOp sess (Op.setcaps i o) = sess by unfold applyOp; dsimp only []; rw [hsc]]
        exact h
      · rw [show applyOp sess (Op.setcaps i o) = s1 by unfold applyOp; dsimp only []; rw [hsc]]
        intro st1 hst1 m hm
        unfold sessionSetCaps at hsc
        rcases hcaps : set_caps i o with _ | r0 <;> rw [hcaps] at hsc <;> simp at hsc
        rcases r0 with e0 | st0 <;> simp [Except.map] at hsc
        rw [← hsc] at hst1
        simp only [Option.some.injEq] at hst1
        subst hst1
        rw [set_caps_ok_intermediate i o st0 hcaps] at hm
        exact absurd hm (by simp)
  · exact transform_snd_good sess d sz h

lemma runOps_good_aux (ops : List Op) (sess : Session) (h : goodSession sess) :
    goodSession (ops.foldl applyOp sess) := by
  induction ops generalizing sess with
  | nil => exact h
  | cons op rest ih => exact ih (applyOp sess op) (applyOp_good sess op h)

lemma sessionSetCaps_ok_state (sess : Session) (i o : List GstStructure) (s1 : Session)
    (h : sessionSetCaps sess i o = some (Except.ok s1)) :
    ∃ st0, set_caps i o = some (Except.ok st0) ∧
      s1 = { state := some st0, fresh := sess.fresh } := by
  unfold sessionSetCaps at h
  rcases hcaps : set_caps i o with _ | r0 <;> rw [hcaps] at h <;> simp at h
  rcases r0 with e0 | st0 <;> simp [Except.map] at h
  exact ⟨st0, rfl, h.symm⟩

lemma opencv_rgba_out_dims (d : List Nat) (st : State) (fr : Nat) (out : Mat)
    (st1 : State) (fr1 : Nat) (hfmt : st.out_info.format = VideoFormat.Rgba)
    (hop : opencv_transform d st fr = Except.ok (out, st1, fr1)) :
    out.rows = st.in_info.height ∧ out.cols = st.in_info.width ∧ out.channels = 4 := by
  unfold opencv_transform at hop
  rw [hfmt] at hop
  rcases hcache : st.intermediate_rgb with _ | m0 <;> rw [hcache] at hop <;>
    simp only [Except.ok.injEq, Prod.mk.injEq] at hop <;>
    obtain ⟨hout, -, -⟩ := hop <;> rw [← hout] <;>
    exact ⟨((cvt_color_dims _ _ _ _).1).trans ((cvt_color_dims _ _ _ _).1),
      ((cvt_color_dims _ _ _ _).2.1).trans ((cvt_color_dims _ _ _ _).2.1),
      ((cvt_color_dims _ _ _ _).2.2).trans rfl⟩

/-- Claim C8: a successful configure call installs a state whose cached
intermediate buffer is discarded (`none`); consequently in every session
reachable by any sequence of configure and frame operations, an allocated
intermediate buffer matches the currently configured input width and
height; and an RGBA transform produces output sized to the currently
configured dimensions. -/
theorem C8_cache_invalidation (sess : Session) (i o : List GstStructure) (sess1 : Session)
    (ops : List Op) (st : State) (f : Nat) (d : List Nat) (sz : Nat) (out : Mat)
    (sess2 : Session)
    (hcfg : sessionSetCaps sess i o = some (Except.ok sess1))
    (hfmt : st.out_info.format = VideoFormat.Rgba)
    (htr : transform { state := some st, fresh := f } d sz = (Except.ok out, sess2)) :
    (∀ st1, sess1.state = some st1 → st1.intermediate_rgb = none) ∧
    goodSession (runOps ops) ∧
    (out.rows = st.in_info.height ∧ out.cols = st.in_info.width ∧ out.channels = 4) := by
  refine ⟨?_, ?_, ?_⟩
  · intro st1 hst1
    obtain ⟨st0, hcaps, hs1⟩ := sessionSetCaps_ok_state sess i o sess1 hcfg
    rw [hs1] at hst1
    simp only [Option.some.injEq] at hst1
    subst hst1
    exact set_caps_ok_intermediate i o st0 hcaps
  · exact runOps_good_aux ops initSession
      (fun st1 hst1 m hm => absurd hst1 (by simp [initSession]))
  · unfold transform at htr
    by_cases hsz : sz < videoInfoSize st.out_info
    · simp [hsz] at htr
    · rcases hop : opencv_transform d st f with e | ⟨out2, st2, fr2⟩ <;>
        simp only [hsz, if_false, hop] at htr
      · simp at htr
      · simp only [Prod.mk.injEq, Except.ok.injEq] at htr
        rw [← htr.1]
        exact opencv_rgba_out_dims d st f out2 st2 fr2 hfmt hop

/-- Output caps naming RGBA at 640x480. -/
def rgbaCaps : List GstStructure :=
  [⟨"video/x-raw", [("format", GVal.str "RGBA"), ("width", GVal.int 640),
    ("height", GVal.int 480)]⟩]

/-- The state `set_caps bayerCaps0 rgbaCaps` produces. -/
def stRgbaCfg : State :=
  { in_info := { width := 640, height := 480, stride := 640 },
    out_info := { format := VideoFormat.Rgba, width := 640, height := 480, stride := 2560 },
    intermediate_rgb := none }

/-- A configured 2x2 RGBA session with no intermediate buffer yet. -/
def st8 : State :=
  { in_info := { width := 2, height := 2, stride := 2 },
    out_info := { format := VideoFormat.Rgba, width := 2, height := 2, stride := 8 },
    intermediate_rgb := none }

/-- The output mat the 2x2 RGBA session writes for the frame `[9,9,9,9]`. -/
def outRgbaSmall : Mat :=
  { rows := 2, cols := 2, channels := 4, allocId := 0,
    data := MatData.converted 0 (MatData.converted 48 (MatData.bytes [9, 9, 9, 9])) }

/-- The 2x2 RGBA session after its first frame: intermediate freshly
allocated (id 1) and holding the demosaiced frame. -/
def st8After : State :=
  { in_info := { width := 2, height := 2, stride := 2 },
    out_info := { format := VideoFormat.Rgba, width := 2, height := 2, stride := 8 },
    intermediate_rgb := some { rows := 2, cols := 2, channels := 3, allocId := 1,
                               data := MatData.converted 48 (MatData.bytes [9, 9, 9, 9]) } }

/-- Concrete instance of C8: configuring Bayer 640x480 to RGBA yields a
state with no cached intermediate buffer; the empty run is a good session;
and the 2x2 RGBA frame produces 2x2 4-channel output. -/
theorem C8_witness :
    stRgbaCfg.intermediate_rgb = none ∧
    goodSession (runOps []) ∧
    (outRgbaSmall.rows = 2 ∧ outRgbaSmall.cols = 2 ∧ outRgbaSmall.channels = 4) := by
  have h := C8_cache_invalidation initSession bayerCaps0 rgbaCaps
    { state := some stRgbaCfg, fresh := 1 } [] st8 1 [9, 9, 9, 9] 16 outRgbaSmall
    { state := some st8After, fresh := 2 } rfl rfl rfl
  exact ⟨h.1 stRgbaCfg rfl, h.2.1, h.2.2⟩

/-- Claim C9: on an RGBA-configured session whose cached intermediate
buffer is already allocated and matches the (consistent) geometry, a
transform call performs no allocation (the counter is unchanged), leaves
the cache holding the same buffer object (same allocation id, contents
refreshed from this call's input), and writes output that is a function of
this call's input bytes — so consecutive calls reuse one buffer yet produce
independent per-call output. -/
theorem C9_intermediate_reuse (st : State) (m : Mat) (f : Nat) (d : List Nat) (sz : Nat)
    (hfmt : st.out_info.format = VideoFormat.Rgba)
    (hm : st.intermediate_rgb = some m)
    (hr : m.rows = st.in_info.height) (hc : m.cols = st.in_info.width) (hch : m.channels = 3)
    (hoh : st.out_info.height = st.in_info.height) (how : st.out_info.width = st.in_info.width)
    (hsz : videoInfoSize st.out_info ≤ sz) :
    (transform { state := some st, fresh := f } d sz).2.fresh = f ∧
    (transform { state := some st, fresh := f } d sz).2.state
      = some { st with
               intermediate_rgb := some
                 { m with
                   data := MatData.converted COLOR_BayerBG2RGB
                     (MatData.bytes (oobRead d (st.in_info.height * st.in_info.stride))) } } ∧
    (transform { state := some st, fresh := f } d sz).1
      = Except.ok
          { rows := st.in_info.height, cols := st.in_info.width, channels := 4, allocId := 0,
            data := MatData.converted COLOR_RGB2RGBA (MatData.converted COLOR_BayerBG2RGB
              (MatData.bytes (oobRead d (st.in_info.height * st.in_info.stride)))) } := by
  have hlt : ¬ sz < videoInfoSize st.out_info := by omega
  have hop : opencv_transform d st f = Except.ok
      ({ rows := st.in_info.height, cols := st.in_info.width, channels := 4, allocId := 0,
         data := MatData.converted COLOR_RGB2RGBA (MatData.converted COLOR_BayerBG2RGB
           (MatData.bytes (oobRead d (st.in_info.height * st.in_info.stride)))) },
       { st with
         intermediate_rgb := some
           { m with
             data := MatData.converted COLOR_BayerBG2RGB
               (MatData.bytes (oobRead d (st.in_info.height * st.in_info.stride))) } },
       f) := by
    unfold opencv_transform
    rw [hfmt, hm]
    have hkeep1 : (cvt_color_def
        { rows := st.in_info.height, cols := st.in_info.width, channels := 1, allocId := 0,
          data := MatData.bytes (oobRead d (st.in_info.height * st.in_info.stride)) }
        m COLOR_BayerBG2RGB f)
        = ({ m with
             data := MatData.converted COLOR_BayerBG2RGB
               (MatData.bytes (oobRead d (st.in_info.height * st.in_info.stride))) }, f) := by
      unfold cvt_color_def
      rw [if_pos ⟨hr, hc, by rw [hch]; rfl⟩]
    have hkeep2 : (cvt_color_def
        { m with
          data := MatData.converted COLOR_BayerBG2RGB
            (MatData.bytes (oobRead d (st.in_info.height * st.in_info.stride))) }
        { rows := st.out_info.height, cols := st.out_info.width, channels := 4, allocId := 0,
          data := MatData.uninit }
        COLOR_RGB2RGBA f)
        = ({ rows := st.in_info.height, cols := st.in_info.width, channels := 4, allocId := 0,
             data := MatData.converted COLOR_RGB2RGBA (MatData.converted COLOR_BayerBG2RGB
               (MatData.bytes (oobRead d (st.in_info.height * st.in_info.stride)))) }, f) := by
      unfold cvt_color_def
      rw [if_pos ⟨by simp [hoh, hr], by simp [how, hc], rfl⟩]
      simp [hoh, how, hr, hc]
    simp only [hkeep1, hkeep2]
  refine ⟨?_, ?_, ?_⟩ <;> simp only [transform, hlt, if_false, hop]

/-- Concrete instance of C9: the cached 2x2 RGBA session processes the
frame `[5,6,7,8]` without allocating — the counter stays 7, the cache keeps
allocation id 5 with refreshed contents, and the output is built from this
frame's bytes. -/
theorem C9_witness :
    (transform { state := some stRgbaCached, fresh := 7 } [5, 6, 7, 8] 16).2.fresh = 7 ∧
    (transform { state := some stRgbaCached, fresh := 7 } [5, 6, 7, 8] 16).2.state
      = some { in_info := { width := 2, height := 2, stride := 2 },
               out_info := { format := VideoFormat.Rgba, width := 2, height := 2,
                             stride := 8 },
               intermediate_rgb := some
                 { rows := 2, cols := 2, channels := 3, allocId := 5,
                   data := MatData.converted 48 (MatData.bytes [5, 6, 7, 8]) } } ∧
    (transform { state := some stRgbaCached, fresh := 7 } [5, 6, 7, 8] 16).1
      = Except.ok
          { rows := 2, cols := 2, channels := 4, allocId := 0,
            data := MatData.converted 0 (MatData.converted 48
              (MatData.bytes [5, 6, 7, 8])) } := by
  have h := C9_intermediate_reuse stRgbaCached
    { rows := 2, cols := 2, channels := 3, allocId := 5, data := MatData.uninit }
    7 [5, 6, 7, 8] 16 rfl rfl rfl rfl rfl rfl rfl (by decide)
  exact ⟨h.1, h.2.1.trans rfl, h.2.2.trans rfl⟩

/-- Claim C10: the configure step reads only the first structure of the
input caps and unconditionally unwraps it — with at least one structure it
never panics (every path returns a configuration result) and depends only
on that first structure, while input caps with zero structures panic
(modelled as the outer `none`) instead of returning a ConfigurationError. -/
theorem C10_set_caps_unwraps_first (outcaps : List GstStructure) (s : GstStructure)
    (rest : List GstStructure) :
    set_caps [] outcaps = none ∧
    set_caps (s :: rest) outcaps ≠ none ∧
    set_caps (s :: rest) outcaps = set_caps [s] outcaps := by
  refine ⟨rfl, ?_, rfl⟩
  unfold set_caps
  simp only [List.head?]
  rcases s.getInt "width" with _ | w
  · simp
  · rcases s.getInt "height" with _ | h
    · simp
    · rcases videoInfoFromCaps outcaps with _ | vi <;> simp
